import Mathlib

set_option maxHeartbeats 1000000

/-!
Shallow embedding of src/pljava-so/src/main/c/Function.c (the PL/Java
cross-runtime function invocation bridge).

The type machinery (Type_isPrimitive, Type_fromOid, Type_coerceDatum, ...)
is an external collaborator of Function.c; it is represented here by an
abstract record of the observations Function.c makes of a Type, plus
oracle structures holding the externally supplied functions.  Everything
that Function.c itself computes (classification counts, the marshaling
loop, the registry, the reconciliation pass) is translated directly from
the C source.
-/

/-- Abstraction of a Type object as observed by Function.c: Type_isPrimitive,
whether Type_getElementType is non-NULL (an array type), Type_isOutParameter,
Type_isDynamic, and Type_getOid. -/
structure Ty where
  isPrimitive : Bool
  isArray : Bool
  isOutParameter : Bool
  isDynamic : Bool
  oid : Nat
deriving DecidableEq

/-- Placeholder Type used for out-of-range list reads (the C code would read
out of bounds there; theorems only ever instantiate in-range indices). -/
def defaultTy : Ty :=
  { isPrimitive := false, isArray := false, isOutParameter := false
  , isDynamic := false, oid := 0 }

/-- passAsPrimitive in Function.c: Type_isPrimitive(t) and
NULL == Type_getElementType(t). -/
def passAsPrimitive (t : Ty) : Bool :=
  t.isPrimitive && !t.isArray

/-- The nonudt arm of the union in struct Function_. -/
structure NonUdt where
  isMultiCall : Bool
  numRefParams : Nat
  numPrimParams : Nat
  paramTypes : List Ty
  returnType : Ty
  typeMap : Option Nat
  methodHandle : Option Nat
deriving DecidableEq

/-- struct Function_ (non-UDT view; the UDT arm of the union is not needed by
any claim).  token models the identity of the allocation (the address passed
to Java as the wrappedPtr), giving pointer identity to descriptors. -/
structure Fn where
  token : Nat
  readOnly : Bool
  isUDT : Bool
  schemaLoader : Option Nat
  clazz : Option Nat
  nonudt : NonUdt
deriving DecidableEq

/-- Unsigned 16-bit increment, as ++ on a uint16 field. -/
def u16inc (n : Nat) : Nat := (n + 1) % 65536

/-- Unsigned 16-bit decrement, as the prefix decrement on a uint16 field. -/
def u16dec (n : Nat) : Nat := (n + 65535) % 65536

/-- Oracle for the external type-resolution entry points used by
_storeToNonUDT: Type_fromJavaType, Type_fromOid (with the type map), and
Type_getJavaTypeName. -/
structure StoreOracle where
  fromJavaType : Nat → String → Ty
  fromOid : Nat → Option Nat → Ty
  javaTypeName : Ty → String

/-- Return-type resolution in _storeToNonUDT: Type_fromJavaType when an
explicit Java return type name was supplied, else Type_fromOid. -/
def resolvedReturnType (o : StoreOracle) (typeMap : Option Nat)
    (returnTypeOid : Nat) (returnJType : Option String) : Ty :=
  match returnJType with
  | some rj => o.fromJavaType returnTypeOid rj
  | none => o.fromOid returnTypeOid typeMap

/-- Parameter-type resolution loop in _storeToNonUDT: for each i below
numParams, Type_fromJavaType when paramJTypes is non-null and has a non-null
element at i, else Type_fromOid on the parameter oid. -/
def resolvedParamTypes (o : StoreOracle) (typeMap : Option Nat)
    (numParams : Nat) (paramOids : List Nat)
    (paramJTypes : Option (List (Option String))) : List Ty :=
  (List.range numParams).map fun i =>
    match paramJTypes with
    | some pj =>
      match pj.getD i none with
      | some jt => o.fromJavaType (paramOids.getD i 0) jt
      | none => o.fromOid (paramOids.getD i 0) typeMap
    | none => o.fromOid (paramOids.getD i 0) typeMap

/-- paramTypes as stored by _storeToNonUDT: the resolution loop runs only
when 0 < numParams, otherwise the array stays NULL (empty here). -/
def storeParamTypesOf (o : StoreOracle) (typeMap : Option Nat)
    (numParams : Nat) (paramOids : List Nat)
    (paramJTypes : Option (List (Option String))) : List Ty :=
  if 0 < numParams then
    resolvedParamTypes o typeMap numParams paramOids paramJTypes
  else []

/-- Number of parameters classified reference (the refParams counter of the
classification loop in _storeToNonUDT). -/
def refClassifiedCount (ts : List Ty) : Nat :=
  ts.countP fun t => !passAsPrimitive t

/-- Number of parameters classified primitive (the primParams counter). -/
def primClassifiedCount (ts : List Ty) : Nat :=
  ts.countP passAsPrimitive

/-- Result of Java_org_postgresql_pljava_internal_Function__1storeToNonUDT:
the populated descriptor, the returned returnTypeIsOutParameter flag, and the
outJTypes name array written back to Java. -/
structure StoreResult where
  fn : Fn
  returnTypeIsOutParameter : Bool
  outJTypes : List String
deriving DecidableEq

/-- Java_org_postgresql_pljava_internal_Function__1storeToNonUDT.  The
counters are uint16 and accumulate with wraparound; the extra reference slot
is added exactly when the resolved return type is an out parameter and the
function is not multi-call. -/
def storeToNonUDT (o : StoreOracle) (wrappedPtr : Nat)
    (schemaLoader clazz : Option Nat) (readOnly isMultiCall : Bool)
    (typeMap : Option Nat) (numParams : Nat) (returnTypeOid : Nat)
    (returnJType : Option String) (paramOids : List Nat)
    (paramJTypes : Option (List (Option String))) : StoreResult :=
  let retTy := resolvedReturnType o typeMap returnTypeOid returnJType
  let ps := storeParamTypesOf o typeMap numParams paramOids paramJTypes
  { fn :=
    { token := wrappedPtr
    , readOnly := readOnly
    , isUDT := false
    , schemaLoader := schemaLoader
    , clazz := clazz
    , nonudt :=
      { isMultiCall := isMultiCall
      , numRefParams :=
          (refClassifiedCount ps +
            if retTy.isOutParameter && !isMultiCall then 1 else 0) % 65536
      , numPrimParams := primClassifiedCount ps % 65536
      , paramTypes := ps
      , returnType := retTy
      , typeMap := typeMap
      , methodHandle := none } }
  , returnTypeIsOutParameter := retTy.isOutParameter
  , outJTypes := ps.map o.javaTypeName ++ [o.javaTypeName retTy] }

/-- Oracle for the external type entry points used by _reconcileTypes:
Type_fromJavaType, Type_canReplaceType, Type_getCoerceIn, Type_getCoerceOut. -/
structure TypeOracle where
  fromJavaType : Nat → String → Ty
  canReplaceType : Ty → Ty → Bool
  getCoerceIn : Ty → Ty → Ty
  getCoerceOut : Ty → Ty → Ty

/-- The replacement type computed by _reconcileTypes: Type_fromJavaType on
the explicit name, wrapped by Type_getCoerceOut (index -2 case) or
Type_getCoerceIn (all other cases) when it cannot directly replace the
original. -/
def reconcileReplacement (torc : TypeOracle) (origType : Ty) (typeId : Nat)
    (javaName : String) (coerceOutAndSingleton : Bool) : Ty :=
  if torc.canReplaceType (torc.fromJavaType typeId javaName) origType then
    torc.fromJavaType typeId javaName
  else if coerceOutAndSingleton then
    torc.getCoerceOut (torc.fromJavaType typeId javaName) origType
  else torc.getCoerceIn (torc.fromJavaType typeId javaName) origType

/-- Java_org_postgresql_pljava_internal_Function__1reconcileTypes.  index -1
and -2 act on the return type (reassigning the working index to the last slot
of resolvedTypes); -2 additionally reads the explicit name from element 0 and
selects the output-direction coercer.  For an ordinary parameter index the
classification counters are adjusted when passAsPrimitive changes, with the
direction chosen by Type_isPrimitive of the replacement. -/
def reconcileTypes (torc : TypeOracle) (f : Fn)
    (resolvedTypes explicitTypes : List String) (index : Int) :
    Fn × List String :=
  let actOnReturnType := index == -1 || index == -2
  let coerceOutAndSingleton := index == -2
  let idx : Nat :=
    if actOnReturnType then resolvedTypes.length - 1 else index.toNat
  let origType :=
    if actOnReturnType then f.nonudt.returnType
    else f.nonudt.paramTypes.getD idx defaultTy
  let typeId := if actOnReturnType then 0 else origType.oid
  let javaName := explicitTypes.getD (if coerceOutAndSingleton then 0 else idx) ""
  let replType := reconcileReplacement torc origType typeId javaName coerceOutAndSingleton
  let f1 :=
    if actOnReturnType then
      { f with nonudt := { f.nonudt with returnType := replType } }
    else
      let nu0 := { f.nonudt with paramTypes := f.nonudt.paramTypes.set idx replType }
      let nu1 :=
        if passAsPrimitive origType != passAsPrimitive replType then
          if replType.isPrimitive then
            { nu0 with numRefParams := u16dec nu0.numRefParams
                     , numPrimParams := u16inc nu0.numPrimParams }
          else
            { nu0 with numRefParams := u16inc nu0.numRefParams
                     , numPrimParams := u16dec nu0.numPrimParams }
        else nu0
      { f with nonudt := nu1 }
  (f1, resolvedTypes.set idx javaName)

/-- COUNTCHECK in Function.c: ((refs << 8) | (prims & 0xff)) truncated to a
16-bit header word. -/
def COUNTCHECK (refs prims : Nat) : Nat :=
  (refs % 256) * 256 + prims % 256

/-- One jvalue as stored in the shared parameter area, with its two views
used by Function.c: the 64-bit j member and the reference member l.  Writing
.j = 0 zeroes the whole union, whose l view is then the null reference. -/
structure JVal where
  j : Int
  l : Option Nat
deriving DecidableEq

/-- The all-zero jvalue written for a null primitive argument. -/
def JVal.zero : JVal := { j := 0, l := none }

/-- The Shared Marshaling Area: the countCheck header word, the primitive
slots of s_primitiveParameters and the slots of s_referenceParameters.  (In C
the header physically occupies reserved bytes inside s_primitiveParameters;
since at most 255 parameters exist, parameter writes never reach it, and it
is modelled as a separate field.) -/
structure ParamArea where
  countCheck : Nat
  prims : List JVal
  refs : List (Option Nat)
deriving DecidableEq

/-- The host-supplied call: argument count, per-argument null flags, argument
datums, the expression-derived argument type oids used for dynamic types, and
the SRF_IS_FIRSTCALL flag. -/
structure CallSite where
  nargs : Nat
  argnull : List Bool
  args : List Nat
  argTypeOids : List Nat
  isFirstCall : Bool
deriving DecidableEq

/-- Oracle for the external entry points used by the marshaling loop:
Type_getRealType (with the expression type oid and the type map) and
Type_coerceDatum. -/
structure InvokeOracle where
  getRealType : Ty → Nat → Option Nat → Ty
  coerceDatum : Ty → Nat → JVal

/-- The running state of the marshaling loop in Function_invoke: the two
independently advancing slot indices and the slot contents. -/
structure MarshalState where
  primIdx : Nat
  refIdx : Nat
  prims : List JVal
  refs : List (Option Nat)
deriving DecidableEq

/-- One iteration of the marshaling loop of Function_invoke for argument
position idx.  passPrimitive is computed from the declared parameter type
before any dynamic-type resolution, exactly as in the C loop. -/
def marshalStep (o : InvokeOracle) (typeMap : Option Nat) (call : CallSite)
    (ty : Ty) (idx : Nat) (st : MarshalState) : MarshalState :=
  if call.argnull.getD idx true then
    if passAsPrimitive ty then
      { st with prims := st.prims.set st.primIdx JVal.zero
              , primIdx := st.primIdx + 1 }
    else
      { st with refIdx := st.refIdx + 1 }
  else
    let rty := if ty.isDynamic then
        o.getRealType ty (call.argTypeOids.getD idx 0) typeMap
      else ty
    let coerced := o.coerceDatum rty (call.args.getD idx 0)
    if passAsPrimitive ty then
      { st with prims := st.prims.set st.primIdx coerced
              , primIdx := st.primIdx + 1 }
    else
      { st with refs := st.refs.set st.refIdx coerced.l
              , refIdx := st.refIdx + 1 }

/-- The full marshaling loop: marshalStep over argument positions 0 to
nargs - 1 in order, against the declared parameter types. -/
def marshalLoop (o : InvokeOracle) (typeMap : Option Nat) (call : CallSite)
    (types : List Ty) (st : MarshalState) : MarshalState :=
  (List.range call.nargs).foldl
    (fun s i => marshalStep o typeMap call (types.getD i defaultTy) i s) st

/-- The marshaling phase of Function_invoke for a non-UDT descriptor: the
state of the Shared Marshaling Area as delivered to dispatch, and the
currentInvocation pushedFrame flag.  For a multi-call function on other than
the first call, marshaling is skipped entirely; otherwise a non-zero header
forces a ParameterFrame push (which copies the area out on the Java side and
does not alter it), the header is rewritten, and the argument loop runs when
there are arguments.  (Invocation_assertDisconnect on a multi-call first call
and the dispatch itself touch no part of the area modelled here.) -/
def Function_invoke_marshal (o : InvokeOracle) (f : Fn) (call : CallSite)
    (area : ParamArea) (pushedIn : Bool) : ParamArea × Bool :=
  let skip := f.nonudt.isMultiCall && !call.isFirstCall
  if skip then (area, pushedIn)
  else
    let pushed := if area.countCheck != 0 then true else pushedIn
    let area1 := { area with
      countCheck := COUNTCHECK f.nonudt.numRefParams f.nonudt.numPrimParams }
    if call.nargs != 0 then
      let st := marshalLoop o f.nonudt.typeMap call f.nonudt.paramTypes
        { primIdx := 0, refIdx := 0, prims := area1.prims, refs := area1.refs }
      ({ area1 with prims := st.prims, refs := st.refs }, pushed)
    else (area1, pushed)

/-- The guest-side outcome of one trigger call as observed by
Function_invokeTrigger: whether pljava_TriggerData_create produced a trigger
object, whether JNI_exceptionCheck reports a pending failure after the
generic invoke, and the tuple datum and is-null flag produced by
pljava_TriggerData_getTriggerReturnTuple. -/
structure TriggerGuest where
  jtd : Option Nat
  exceptionPending : Bool
  returnTuple : Nat
  guestIsNull : Bool
deriving DecidableEq

/-- Function_invokeTrigger: returns (result datum, fcinfo.isnull, marshaling
area as delivered to dispatch, pushedFrame).  When trigger-data creation
fails the function returns datum 0 immediately; otherwise the header is set
to COUNTCHECK(1,0) under the same frame-push rule as Function_invoke, the
trigger object is written to reference slot 0, and after the generic invoke
isnull is forced false: on a pending guest failure the result is datum 0,
otherwise the extracted tuple with isnull again forced false regardless of
what getTriggerReturnTuple stored. -/
def Function_invokeTrigger (g : TriggerGuest) (isnullIn : Bool)
    (area : ParamArea) (pushedIn : Bool) : Nat × Bool × ParamArea × Bool :=
  match g.jtd with
  | none => (0, isnullIn, area, pushedIn)
  | some td =>
    let pushed := if area.countCheck != 0 then true else pushedIn
    let area1 := { area with countCheck := COUNTCHECK 1 0
                           , refs := area.refs.set 0 (some td) }
    if g.exceptionPending then (0, false, area1, pushed)
    else (g.returnTuple, false, area1, pushed)

/-- The function registry s_funcMap: oid-keyed entries. -/
abbrev RegMap : Type := List (Nat × Fn)

/-- HashMap_getByOid on the registry. -/
def regLookup : RegMap → Nat → Option Fn
  | [], _ => none
  | kv :: rest, oid => if kv.1 = oid then some kv.2 else regLookup rest oid

/-- HashMap_putByOid on the registry: replaces the entry with the same key,
or appends a new one. -/
def regPut : RegMap → Nat → Fn → RegMap
  | [], oid, f => [(oid, f)]
  | kv :: rest, oid, f =>
    if kv.1 = oid then (oid, f) :: rest else kv :: regPut rest oid f

/-- The outcome of the guest call Function.create made by Function_create:
whether it unwound, the method handle it returned, and the state of the
placeholder descriptor after the call (the guest populates it through the
_storeToNonUDT and _storeToUDT callbacks; allocInstance zeroes the
placeholder, so isUDT is false unless _storeToUDT completed). -/
structure GuestCreateResult where
  threw : Bool
  handle : Option Nat
  populated : Fn
deriving DecidableEq

/-- Function_create in Function.c.  An unwinding guest call frees the
placeholder and re-throws.  A non-null handle completes a non-UDT
descriptor.  A null handle with isUDT still false frees the placeholder:
for a validator that is reported as no descriptor, otherwise it is an
error.  A null handle with isUDT true is a completed UDT descriptor. -/
def Function_create (g : GuestCreateResult) (forValidator : Bool) :
    Except Unit (Option Fn) :=
  if g.threw then Except.error ()
  else match g.handle with
  | some h =>
    Except.ok (some { g.populated with
      nonudt := { g.populated.nonudt with methodHandle := some h } })
  | none =>
    if g.populated.isUDT then Except.ok (some g.populated)
    else if forValidator then Except.ok none
    else Except.error ()

/-- Function_getFunction: for a validator the cache is not consulted; on a
miss Function_create runs and a non-null result is stored.  Returns the
descriptor (also recorded as currentInvocation-)function) and the updated
registry. -/
def Function_getFunction (g : GuestCreateResult) (m : RegMap) (funcOid : Nat)
    (forValidator : Bool) : Except Unit (Option Fn × RegMap) :=
  match (if forValidator then none else regLookup m funcOid) with
  | some f => Except.ok (some f, m)
  | none =>
    match Function_create g forValidator with
    | Except.error e => Except.error e
    | Except.ok none => Except.ok (none, m)
    | Except.ok (some f) => Except.ok (some f, regPut m funcOid f)

/-- Function_inUse: walk the chain of invocation frames (each holding the
possibly-null function it is executing) looking for this descriptor. -/
def Function_inUse (stack : List (Option Fn)) (f : Fn) : Bool :=
  match stack with
  | [] => false
  | o :: rest => if o = some f then true else Function_inUse rest f

/-- Function_clearFunctionCache: a fresh map replaces s_funcMap; every entry
of the old map that is in use moves to the new map, every other entry is
freed.  Returns (new map, released descriptors). -/
def Function_clearFunctionCache (stack : List (Option Fn)) :
    RegMap → RegMap × List Fn
  | [] => ([], [])
  | (k, f) :: rest =>
    if Function_inUse stack f then
      ((k, f) :: (Function_clearFunctionCache stack rest).1,
       (Function_clearFunctionCache stack rest).2)
    else
      ((Function_clearFunctionCache stack rest).1,
       f :: (Function_clearFunctionCache stack rest).2)

/-- Function_isCurrentReadOnly: read-only by default while no function is
current in the innermost invocation frame, else the descriptor's readOnly. -/
def Function_isCurrentReadOnly (curFn : Option Fn) : Bool :=
  match curFn with
  | none => true
  | some f => f.readOnly

/-- The replacement type _reconcileTypes computes for an ordinary parameter
index i: Type_fromJavaType on the original parameter oid and the explicit
name at i, coerced input-direction when it cannot directly replace. -/
def ordReplacement (torc : TypeOracle) (f : Fn) (ets : List String)
    (i : Nat) : Ty :=
  reconcileReplacement torc (f.nonudt.paramTypes.getD i defaultTy)
    (f.nonudt.paramTypes.getD i defaultTy).oid (ets.getD i "") false

/-- Sample reference-classified type whose Type_isOutParameter is true (for
example a composite/record return type). -/
def tyOutRef : Ty :=
  { isPrimitive := false, isArray := false, isOutParameter := true
  , isDynamic := false, oid := 7 }

/-- Sample primitive scalar type (classified primitive). -/
def tyPrimScalar : Ty :=
  { isPrimitive := true, isArray := false, isOutParameter := false
  , isDynamic := false, oid := 23 }

/-- Sample ordinary reference type. -/
def tyRefObj : Ty :=
  { isPrimitive := false, isArray := false, isOutParameter := false
  , isDynamic := false, oid := 25 }

/-- Sample primitive array type: Type_isPrimitive is true but an element
type is present, so it is classified reference (int maps to int[] here). -/
def tyPrimArray : Ty :=
  { isPrimitive := true, isArray := true, isOutParameter := false
  , isDynamic := false, oid := 1007 }

/-- Sample result of Type_getCoerceIn. -/
def tyCoIn : Ty :=
  { isPrimitive := false, isArray := false, isOutParameter := false
  , isDynamic := false, oid := 41 }

/-- Sample result of Type_getCoerceOut. -/
def tyCoOut : Ty :=
  { isPrimitive := false, isArray := false, isOutParameter := false
  , isDynamic := false, oid := 42 }

/-- Store oracle whose oid-based resolution yields the out-parameter type. -/
def storeOracleOut : StoreOracle :=
  { fromJavaType := fun _ _ => tyPrimScalar
  , fromOid := fun _ _ => tyOutRef
  , javaTypeName := fun _ => "t" }

/-- Type oracle whose explicit resolution yields a primitive array that can
directly replace anything (no coercer needed). -/
def typeOracleArr : TypeOracle :=
  { fromJavaType := fun _ _ => tyPrimArray
  , canReplaceType := fun _ _ => true
  , getCoerceIn := fun r _ => r
  , getCoerceOut := fun r _ => r }

/-- Type oracle on which nothing can directly replace anything, so a coercer
is always needed; the two coercion directions give distinct results. -/
def typeOracleCo : TypeOracle :=
  { fromJavaType := fun _ _ => tyRefObj
  , canReplaceType := fun _ _ => false
  , getCoerceIn := fun _ _ => tyCoIn
  , getCoerceOut := fun _ _ => tyCoOut }

/-- Sample non-UDT descriptor: one reference parameter, one primitive
parameter. -/
def fnSample : Fn :=
  { token := 1, readOnly := false, isUDT := false
  , schemaLoader := none, clazz := none
  , nonudt :=
    { isMultiCall := false, numRefParams := 1, numPrimParams := 1
    , paramTypes := [tyRefObj, tyPrimScalar], returnType := tyRefObj
    , typeMap := none, methodHandle := none } }

/-- fnSample marked multi-call. -/
def fnMulti : Fn :=
  { fnSample with nonudt := { fnSample.nonudt with isMultiCall := true } }

/-- A second descriptor, distinct from fnSample. -/
def fnOther : Fn := { fnSample with token := 2 }

/-- Sample invocation oracle. -/
def invokeOracleId : InvokeOracle :=
  { getRealType := fun t _ _ => t
  , coerceDatum := fun _ d => { j := Int.ofNat d, l := some d } }

/-- Sample call, not the first call of its SRF sequence. -/
def callSample : CallSite :=
  { nargs := 2, argnull := [true, true], args := [0, 0]
  , argTypeOids := [0, 0], isFirstCall := false }

/-- Sample call whose argument 0 is null. -/
def callNullArg : CallSite :=
  { nargs := 2, argnull := [true, false], args := [0, 5]
  , argTypeOids := [0, 0], isFirstCall := true }

/-- Sample marshaling area. -/
def areaSample : ParamArea :=
  { countCheck := 0
  , prims := [JVal.zero, JVal.zero]
  , refs := [none, none] }

/-- Sample marshaling loop state. -/
def stSample : MarshalState :=
  { primIdx := 0, refIdx := 0
  , prims := [JVal.zero, JVal.zero], refs := [none, none] }

/-- Sample trigger-call guest outcome with a pending failure. -/
def trigSample : TriggerGuest :=
  { jtd := some 3, exceptionPending := true, returnTuple := 9
  , guestIsNull := true }

/-- Sample guest outcome of Function.create: returns a method handle. -/
def guestSample : GuestCreateResult :=
  { threw := false, handle := some 4, populated := fnSample }

/-- Sample guest outcome of Function.create: the guest call unwinds. -/
def guestThrows : GuestCreateResult :=
  { threw := true, handle := none, populated := fnSample }

/-- Sample registry holding fnSample under oid 5. -/
def regSample : RegMap := [(5, fnSample)]

/-- Sample registry holding fnSample (in use below) and fnOther (not). -/
def regSample2 : RegMap := [(5, fnSample), (6, fnOther)]

/-- Sample invocation frame stack: fnSample is executing, plus one frame
with no current function. -/
def stackSample : List (Option Fn) := [some fnSample, none]

theorem countP_add_countP_not (p : Ty → Bool) (l : List Ty) :
    l.countP p + l.countP (fun a => !p a) = l.length := by
  induction l with
  | nil => simp
  | cons a t ih =>
    cases hpa : p a <;> simp [List.countP_cons, hpa] <;> omega

theorem storeParamTypesOf_length (o : StoreOracle) (typeMap : Option Nat)
    (numParams : Nat) (paramOids : List Nat)
    (paramJTypes : Option (List (Option String))) :
    (storeParamTypesOf o typeMap numParams paramOids paramJTypes).length
      = numParams := by
  unfold storeParamTypesOf
  split
  · simp [resolvedParamTypes]
  · simp
    omega

theorem getD_set_self (l : List Ty) (i : Nat) (a d : Ty)
    (h : i < l.length) : (l.set i a).getD i d = a := by
  induction l generalizing i with
  | nil => simp at h
  | cons x xs ih =>
    cases i with
    | zero => simp
    | succ n =>
      simp only [List.set_cons_succ, List.getD_cons_succ]
      exact ih n (by simpa using h)

/-- C10: Whenever no function is current in the innermost invocation frame
(currentInvocation's function is 0, as during resolution of the class and
Java function), Function_isCurrentReadOnly returns true: the bridge reports
read-only by default. -/
theorem isCurrentReadOnly_default_true :
    Function_isCurrentReadOnly none = true := rfl

/-- C2: For a descriptor with isMultiCall true, every invocation after the
first (SRF_IS_FIRSTCALL false) performs no parameter marshaling at all: the
Shared Marshaling Area's header and its primitive and reference slots are
returned exactly as they came in, with no write occurring (and no parameter
frame is pushed). -/
theorem multiCall_subsequent_call_skips_marshaling
    (o : InvokeOracle) (f : Fn) (call : CallSite) (area : ParamArea)
    (pushedIn : Bool)
    (hmc : f.nonudt.isMultiCall = true) (hfc : call.isFirstCall = false) :
    Function_invoke_marshal o f call area pushedIn = (area, pushedIn) := by
  simp [Function_invoke_marshal, hmc, hfc]

theorem multiCall_subsequent_call_skips_marshaling_witness :
    fnMulti.nonudt.isMultiCall = true
  ∧ callSample.isFirstCall = false
  ∧ Function_invoke_marshal invokeOracleId fnMulti callSample areaSample false
      = (areaSample, false) :=
  ⟨by decide, by decide,
    multiCall_subsequent_call_skips_marshaling invokeOracleId fnMulti
      callSample areaSample false (by decide) (by decide)⟩

/-- C3: In the marshaling loop of Function_invoke (the non-multi-call,
non-UDT path), for an argument position the host marks null: if the declared
parameter type is classified primitive, exactly the zero jvalue is written
into the next primitive slot and the primitive index advances by one; if it
is classified reference, the reference index advances by one and nothing is
written. -/
theorem null_argument_marshaling
    (o : InvokeOracle) (typeMap : Option Nat) (call : CallSite) (ty : Ty)
    (idx : Nat) (st : MarshalState)
    (hnull : call.argnull.getD idx true = true) :
    (passAsPrimitive ty = true →
      marshalStep o typeMap call ty idx st
        = { st with prims := st.prims.set st.primIdx JVal.zero
                  , primIdx := st.primIdx + 1 })
  ∧ (passAsPrimitive ty = false →
      marshalStep o typeMap call ty idx st
        = { st with refIdx := st.refIdx + 1 }) := by
  simp only [List.getD, List.get?_eq_getElem?] at hnull
  constructor <;> intro h <;> simp [marshalStep, List.getD, hnull, h]

theorem null_argument_marshaling_witness :
    callNullArg.argnull.getD 0 true = true
  ∧ marshalStep invokeOracleId none callNullArg tyPrimScalar 0 stSample
      = { stSample with prims := stSample.prims.set stSample.primIdx JVal.zero
                      , primIdx := stSample.primIdx + 1 } :=
  ⟨by decide,
    (null_argument_marshaling invokeOracleId none callNullArg tyPrimScalar 0
      stSample (by decide)).1 (by decide)⟩

/-- C6: For a trigger invocation in which the trigger-data object was
created, the host's is-null output flag is false after Function_invokeTrigger
regardless of what the guest computed, and if the guest runtime signals a
pending failure after the generic invoke, the result is the zero datum (no
result tuple). -/
theorem invokeTrigger_isnull_forced_false
    (g : TriggerGuest) (isnullIn : Bool) (area : ParamArea) (pushedIn : Bool)
    (hjtd : g.jtd ≠ none) :
    (Function_invokeTrigger g isnullIn area pushedIn).2.1 = false
  ∧ (g.exceptionPending = true →
      (Function_invokeTrigger g isnullIn area pushedIn).1 = 0) := by
  cases hj : g.jtd with
  | none => exact absurd hj hjtd
  | some td =>
    cases he : g.exceptionPending <;>
      simp [Function_invokeTrigger, hj, he]

theorem invokeTrigger_isnull_forced_false_witness :
    trigSample.jtd ≠ none
  ∧ (Function_invokeTrigger trigSample true areaSample false).2.1 = false :=
  ⟨by decide,
    (invokeTrigger_isnull_forced_false trigSample true areaSample false
      (by decide)).1⟩

theorem intOfNat_beq_neg_one (i : Nat) :
    ((i : Int) == (-1 : Int)) = false := by
  rw [beq_eq_false_iff_ne]
  omega

theorem intOfNat_beq_neg_two (i : Nat) :
    ((i : Int) == (-2 : Int)) = false := by
  rw [beq_eq_false_iff_ne]
  omega

theorem reconcileTypes_ordinary (torc : TypeOracle) (f : Fn)
    (rts ets : List String) (i : Nat) :
    reconcileTypes torc f rts ets (i : Int)
      = ({ f with nonudt :=
            if passAsPrimitive (f.nonudt.paramTypes.getD i defaultTy)
                != passAsPrimitive (ordReplacement torc f ets i) then
              if (ordReplacement torc f ets i).isPrimitive then
                { f.nonudt with
                    paramTypes :=
                      f.nonudt.paramTypes.set i (ordReplacement torc f ets i)
                  , numRefParams := u16dec f.nonudt.numRefParams
                  , numPrimParams := u16inc f.nonudt.numPrimParams }
              else
                { f.nonudt with
                    paramTypes :=
                      f.nonudt.paramTypes.set i (ordReplacement torc f ets i)
                  , numRefParams := u16inc f.nonudt.numRefParams
                  , numPrimParams := u16dec f.nonudt.numPrimParams }
            else
              { f.nonudt with
                  paramTypes :=
                    f.nonudt.paramTypes.set i (ordReplacement torc f ets i) } }
        , rts.set i (ets.getD i "")) := by
  simp only [reconcileTypes, ordReplacement, intOfNat_beq_neg_one,
    intOfNat_beq_neg_two, Bool.or_self, Bool.false_eq_true, if_false,
    Int.ofNat_eq_coe, Int.toNat_natCast]

theorem reconcileTypes_ordinary_counts (torc : TypeOracle) (f : Fn)
    (rts ets : List String) (i : Nat)
    (hd : (passAsPrimitive (f.nonudt.paramTypes.getD i defaultTy)
        != passAsPrimitive (ordReplacement torc f ets i)) = true) :
    ((reconcileTypes torc f rts ets (i : Int)).1.nonudt.numRefParams,
     (reconcileTypes torc f rts ets (i : Int)).1.nonudt.numPrimParams)
    = if (ordReplacement torc f ets i).isPrimitive
      then (u16dec f.nonudt.numRefParams, u16inc f.nonudt.numPrimParams)
      else (u16inc f.nonudt.numRefParams, u16dec f.nonudt.numPrimParams) := by
  rw [reconcileTypes_ordinary, hd, if_pos rfl]
  cases hp : (ordReplacement torc f ets i).isPrimitive
  · rfl
  · rfl

theorem reconcileTypes_ordinary_counts_unchanged (torc : TypeOracle) (f : Fn)
    (rts ets : List String) (i : Nat)
    (hd : (passAsPrimitive (f.nonudt.paramTypes.getD i defaultTy)
        != passAsPrimitive (ordReplacement torc f ets i)) = false) :
    ((reconcileTypes torc f rts ets (i : Int)).1.nonudt.numRefParams,
     (reconcileTypes torc f rts ets (i : Int)).1.nonudt.numPrimParams)
    = (f.nonudt.numRefParams, f.nonudt.numPrimParams) := by
  rw [reconcileTypes_ordinary, hd, if_neg (by simp)]

theorem reconcileTypes_retNeg2 (torc : TypeOracle) (f : Fn)
    (rts ets : List String) :
    reconcileTypes torc f rts ets (-2)
      = ({ f with nonudt :=
            { f.nonudt with
                returnType :=
                  reconcileReplacement torc f.nonudt.returnType 0
                    (ets.getD 0 "") true } }
        , rts.set (rts.length - 1) (ets.getD 0 "")) := by
  rfl

theorem reconcileTypes_retNeg1 (torc : TypeOracle) (f : Fn)
    (rts ets : List String) :
    reconcileTypes torc f rts ets (-1)
      = ({ f with nonudt :=
            { f.nonudt with
                returnType :=
                  reconcileReplacement torc f.nonudt.returnType 0
                    (ets.getD (rts.length - 1) "") false } }
        , rts.set (rts.length - 1) (ets.getD (rts.length - 1) "")) := by
  rfl

/-- C7: In _reconcileTypes, when the candidate replacement type cannot
directly replace the original: for index -2 the explicit type name is read
from element 0 of a length-one array and the replacement is wrapped in an
output-direction coercer, while for index -1 (whose name is read at the last
resolvedTypes slot) and for every ordinary parameter index the replacement
is wrapped in an input-direction coercer. -/
theorem reconcileTypes_coercion_direction
    (torc : TypeOracle) (f : Fn) (rts2 rts1 rtsP ets2 ets1 etsP : List String)
    (i : Nat)
    (h2len : ets2.length = 1)
    (h2 : torc.canReplaceType (torc.fromJavaType 0 (ets2.getD 0 ""))
        f.nonudt.returnType = false)
    (h1 : torc.canReplaceType
        (torc.fromJavaType 0 (ets1.getD (rts1.length - 1) ""))
        f.nonudt.returnType = false)
    (hiP : i < f.nonudt.paramTypes.length)
    (hP : torc.canReplaceType
        (torc.fromJavaType (f.nonudt.paramTypes.getD i defaultTy).oid
          (etsP.getD i ""))
        (f.nonudt.paramTypes.getD i defaultTy) = false) :
    (reconcileTypes torc f rts2 ets2 (-2)).1.nonudt.returnType
      = torc.getCoerceOut (torc.fromJavaType 0 (ets2.getD 0 ""))
          f.nonudt.returnType
  ∧ (reconcileTypes torc f rts1 ets1 (-1)).1.nonudt.returnType
      = torc.getCoerceIn
          (torc.fromJavaType 0 (ets1.getD (rts1.length - 1) ""))
          f.nonudt.returnType
  ∧ (reconcileTypes torc f rtsP etsP (i : Int)).1.nonudt.paramTypes.getD
        i defaultTy
      = torc.getCoerceIn
          (torc.fromJavaType (f.nonudt.paramTypes.getD i defaultTy).oid
            (etsP.getD i ""))
          (f.nonudt.paramTypes.getD i defaultTy) := by
  have hrepl : ordReplacement torc f etsP i
      = torc.getCoerceIn
          (torc.fromJavaType (f.nonudt.paramTypes.getD i defaultTy).oid
            (etsP.getD i ""))
          (f.nonudt.paramTypes.getD i defaultTy) := by
    unfold ordReplacement reconcileReplacement
    rw [hP, if_neg (by decide), if_neg (by decide)]
  refine ⟨?_, ?_, ?_⟩
  · rw [reconcileTypes_retNeg2]
    show reconcileReplacement torc f.nonudt.returnType 0 (ets2.getD 0 "")
        true = _
    unfold reconcileReplacement
    rw [h2, if_neg (by decide), if_pos rfl]
  · rw [reconcileTypes_retNeg1]
    show reconcileReplacement torc f.nonudt.returnType 0
        (ets1.getD (rts1.length - 1) "") false = _
    unfold reconcileReplacement
    rw [h1, if_neg (by decide), if_neg (by decide)]
  · rw [reconcileTypes_ordinary, hrepl]
    split
    · split
      · exact getD_set_self f.nonudt.paramTypes i _ defaultTy hiP
      · exact getD_set_self f.nonudt.paramTypes i _ defaultTy hiP
    · exact getD_set_self f.nonudt.paramTypes i _ defaultTy hiP

theorem reconcileTypes_coercion_direction_witness :
    typeOracleCo.canReplaceType
        (typeOracleCo.fromJavaType 0 (List.getD ["z"] 0 ""))
        fnSample.nonudt.returnType = false
  ∧ (reconcileTypes typeOracleCo fnSample ["a", "b", "c"] ["z"]
        (-2)).1.nonudt.returnType
      = typeOracleCo.getCoerceOut
          (typeOracleCo.fromJavaType 0 (List.getD ["z"] 0 ""))
          fnSample.nonudt.returnType :=
  ⟨by decide,
    (reconcileTypes_coercion_direction typeOracleCo fnSample
      ["a", "b", "c"] ["p", "q", "r"] ["a", "b"] ["z"] ["u", "v", "w"]
      ["x", "y"] 1 (by decide) (by decide) (by decide) (by decide)
      (by decide)).1⟩

/-- C8 counterexample: reconciling parameter 1 of fnSample (a primitive
scalar, classified primitive) to a primitive array type (classified
reference, since an element type is present; Type_isPrimitive still true).
The classification differs and the replacement is reference-classified, so
the claim requires numRefParams to rise from 1 to 2; the code instead
branches on Type_isPrimitive of the replacement and moves the counts the
other way, leaving numRefParams 0 and numPrimParams 2. -/
theorem reconcileTypes_direction_counterexample :
    passAsPrimitive (fnSample.nonudt.paramTypes.getD 1 defaultTy) = true
  ∧ passAsPrimitive (ordReplacement typeOracleArr fnSample ["x", "y"] 1)
      = false
  ∧ fnSample.nonudt.numRefParams = 1
  ∧ fnSample.nonudt.numPrimParams = 1
  ∧ (reconcileTypes typeOracleArr fnSample ["a", "b"] ["x", "y"]
      1).1.nonudt.numRefParams = 0
  ∧ (reconcileTypes typeOracleArr fnSample ["a", "b"] ["x", "y"]
      1).1.nonudt.numPrimParams = 2 := by
  decide

/-- C8 (amended): after _reconcileTypes replaces the type of parameter i
with one whose primitive/reference classification differs from the
original's, numRefParams + numPrimParams is unchanged modulo 2^16, and each
count moves by one (with 16-bit wraparound) in the direction given by
Type_isPrimitive of the replacement: numPrimParams gains when the
replacement's Type_isPrimitive is true, numRefParams gains otherwise.  This
agrees with the replacement's classification except when the replacement is
a primitive array type. -/
theorem reconcileTypes_count_adjustment
    (torc : TypeOracle) (f : Fn) (rts ets : List String) (i : Nat)
    (hi : i < f.nonudt.paramTypes.length)
    (hdiff : passAsPrimitive (f.nonudt.paramTypes.getD i defaultTy)
        ≠ passAsPrimitive (ordReplacement torc f ets i)) :
    ((reconcileTypes torc f rts ets (i : Int)).1.nonudt.numRefParams
      + (reconcileTypes torc f rts ets
          (i : Int)).1.nonudt.numPrimParams) % 65536
      = (f.nonudt.numRefParams + f.nonudt.numPrimParams) % 65536
  ∧ ((ordReplacement torc f ets i).isPrimitive = true →
      (reconcileTypes torc f rts ets (i : Int)).1.nonudt.numPrimParams
        = u16inc f.nonudt.numPrimParams
      ∧ (reconcileTypes torc f rts ets (i : Int)).1.nonudt.numRefParams
        = u16dec f.nonudt.numRefParams)
  ∧ ((ordReplacement torc f ets i).isPrimitive = false →
      (reconcileTypes torc f rts ets (i : Int)).1.nonudt.numRefParams
        = u16inc f.nonudt.numRefParams
      ∧ (reconcileTypes torc f rts ets (i : Int)).1.nonudt.numPrimParams
        = u16dec f.nonudt.numPrimParams) := by
  have hbne : (passAsPrimitive (f.nonudt.paramTypes.getD i defaultTy)
      != passAsPrimitive (ordReplacement torc f ets i)) = true :=
    bne_iff_ne.mpr hdiff
  have hc := reconcileTypes_ordinary_counts torc f rts ets i hbne
  cases hp : (ordReplacement torc f ets i).isPrimitive with
  | false =>
    rw [hp, if_neg (by decide)] at hc
    injection hc with hr hpr
    refine ⟨?_, ?_, ?_⟩
    · rw [hr, hpr, u16inc, u16dec]
      omega
    · intro hpc
      simp [hp] at hpc
    · intro _
      exact ⟨hr, hpr⟩
  | true =>
    rw [hp, if_pos rfl] at hc
    injection hc with hr hpr
    refine ⟨?_, ?_, ?_⟩
    · rw [hr, hpr, u16inc, u16dec]
      omega
    · intro _
      exact ⟨hpr, hr⟩
    · intro hpc
      simp [hp] at hpc

theorem reconcileTypes_count_adjustment_witness :
    passAsPrimitive (fnSample.nonudt.paramTypes.getD 1 defaultTy)
      ≠ passAsPrimitive (ordReplacement typeOracleArr fnSample ["x", "y"] 1)
  ∧ ((reconcileTypes typeOracleArr fnSample ["a", "b"] ["x", "y"]
        ((1 : Nat) : Int)).1.nonudt.numRefParams
      + (reconcileTypes typeOracleArr fnSample ["a", "b"] ["x", "y"]
          ((1 : Nat) : Int)).1.nonudt.numPrimParams) % 65536
      = (fnSample.nonudt.numRefParams + fnSample.nonudt.numPrimParams)
          % 65536 :=
  ⟨by decide,
    (reconcileTypes_count_adjustment typeOracleArr fnSample ["a", "b"]
      ["x", "y"] 1 (by decide) (by decide)).1⟩

theorem reconcileTypes_sum_mod (torc : TypeOracle) (f : Fn)
    (rts ets : List String) (ix : Int) :
    ((reconcileTypes torc f rts ets ix).1.nonudt.numRefParams
      + (reconcileTypes torc f rts ets ix).1.nonudt.numPrimParams) % 65536
      = (f.nonudt.numRefParams + f.nonudt.numPrimParams) % 65536 := by
  by_cases har : (ix == -1 || ix == -2) = true
  · rw [reconcileTypes, har]
    rfl
  · have har2 : (ix == -1 || ix == -2) = false := by
      cases hb : (ix == -1 || ix == -2)
      · rfl
      · exact absurd hb har
    obtain ⟨hax1, hax2⟩ := Bool.or_eq_false_iff.mp har2
    simp only [reconcileTypes, hax2, Bool.or_false, hax1,
      Bool.false_eq_true, if_false]
    split_ifs with hc1 hc2
    · simp only [u16inc, u16dec]
      omega
    · simp only [u16inc, u16dec]
      omega
    · rfl

/-- C1 counterexample: a procedure with zero declared parameters whose
return type resolves to an out parameter (for example a composite-returning
function), not multi-call.  _storeToNonUDT counts one extra reference slot
for the return value, so numRefParams + numPrimParams is 1, not the declared
parameter count 0. -/
theorem storeToNonUDT_sum_exceeds_declared_count :
    (storeToNonUDT storeOracleOut 1 none none false false none 0 7 none []
        none).returnTypeIsOutParameter = true
  ∧ (storeToNonUDT storeOracleOut 1 none none false false none 0 7 none []
        none).fn.nonudt.numRefParams
      + (storeToNonUDT storeOracleOut 1 none none false false none 0 7 none []
        none).fn.nonudt.numPrimParams = 1
  ∧ ¬((storeToNonUDT storeOracleOut 1 none none false false none 0 7 none []
        none).fn.nonudt.numRefParams
      + (storeToNonUDT storeOracleOut 1 none none false false none 0 7 none []
        none).fn.nonudt.numPrimParams = 0) := by
  decide

/-- C1 (amended): after _storeToNonUDT, numRefParams + numPrimParams equals
the declared parameter count, plus one exactly when the resolved return type
is an out parameter and the function is not multi-call; and every subsequent
_reconcileTypes call preserves numRefParams + numPrimParams modulo 2^16. -/
theorem param_count_sum_invariant
    (o : StoreOracle) (w : Nat) (sl cl : Option Nat) (ro mc : Bool)
    (tm : Option Nat) (np rOid : Nat) (rJT : Option String)
    (pOids : List Nat) (pJTs : Option (List (Option String)))
    (torc : TypeOracle) (f : Fn) (rts ets : List String) (ix : Int)
    (hnp : np + 1 < 65536) :
    (storeToNonUDT o w sl cl ro mc tm np rOid rJT pOids pJTs
        ).fn.nonudt.numRefParams
      + (storeToNonUDT o w sl cl ro mc tm np rOid rJT pOids pJTs
        ).fn.nonudt.numPrimParams
      = np + (if (resolvedReturnType o tm rOid rJT).isOutParameter && !mc
              then 1 else 0)
  ∧ ((reconcileTypes torc f rts ets ix).1.nonudt.numRefParams
      + (reconcileTypes torc f rts ets ix).1.nonudt.numPrimParams) % 65536
      = (f.nonudt.numRefParams + f.nonudt.numPrimParams) % 65536 := by
  constructor
  · have hlen := storeParamTypesOf_length o tm np pOids pJTs
    have hsplit : primClassifiedCount (storeParamTypesOf o tm np pOids pJTs)
        + refClassifiedCount (storeParamTypesOf o tm np pOids pJTs)
        = np := by
      rw [primClassifiedCount, refClassifiedCount]
      rw [countP_add_countP_not passAsPrimitive
        (storeParamTypesOf o tm np pOids pJTs), hlen]
    rw [storeToNonUDT]
    cases hout : (resolvedReturnType o tm rOid rJT).isOutParameter && !mc
    · simp only [Bool.false_eq_true, if_false]
      rw [Nat.mod_eq_of_lt (by omega), Nat.mod_eq_of_lt (by omega)]
      omega
    · simp only [if_true]
      rw [Nat.mod_eq_of_lt (by omega), Nat.mod_eq_of_lt (by omega)]
      omega
  · exact reconcileTypes_sum_mod torc f rts ets ix

theorem param_count_sum_invariant_witness :
    2 + 1 < 65536
  ∧ (storeToNonUDT storeOracleOut 1 none none false false none 2 7 none
        [1, 2] none).fn.nonudt.numRefParams
      + (storeToNonUDT storeOracleOut 1 none none false false none 2 7 none
        [1, 2] none).fn.nonudt.numPrimParams
      = 2 + (if (resolvedReturnType storeOracleOut none 7 none).isOutParameter
              && !false then 1 else 0) :=
  ⟨by decide,
    (param_count_sum_invariant storeOracleOut 1 none none false false none
      2 7 none [1, 2] none typeOracleArr fnSample ["a", "b"] ["x", "y"] 1
      (by decide)).1⟩

/-- C9: When _storeToNonUDT stores a descriptor whose resolved return type
is an out parameter, numRefParams counts one extra reference slot beyond the
reference-classified declared parameters only if the function is not
multi-call; for a multi-call function with an out-parameter return type no
extra reference slot is counted. -/
theorem storeToNonUDT_outParameter_extra_ref_slot
    (o : StoreOracle) (w : Nat) (sl cl : Option Nat) (ro : Bool)
    (tm : Option Nat) (np rOid : Nat) (rJT : Option String)
    (pOids : List Nat) (pJTs : Option (List (Option String)))
    (hout : (resolvedReturnType o tm rOid rJT).isOutParameter = true)
    (hnp : np + 1 < 65536) :
    (storeToNonUDT o w sl cl ro false tm np rOid rJT pOids pJTs
        ).fn.nonudt.numRefParams
      = refClassifiedCount ((storeToNonUDT o w sl cl ro false tm np rOid rJT
          pOids pJTs).fn.nonudt.paramTypes) + 1
  ∧ (storeToNonUDT o w sl cl ro true tm np rOid rJT pOids pJTs
        ).fn.nonudt.numRefParams
      = refClassifiedCount ((storeToNonUDT o w sl cl ro true tm np rOid rJT
          pOids pJTs).fn.nonudt.paramTypes) := by
  have hlen := storeParamTypesOf_length o tm np pOids pJTs
  have hrle : refClassifiedCount (storeParamTypesOf o tm np pOids pJTs)
      ≤ np := by
    rw [refClassifiedCount]
    calc (storeParamTypesOf o tm np pOids pJTs).countP
          (fun t => !passAsPrimitive t)
        ≤ (storeParamTypesOf o tm np pOids pJTs).length :=
          List.countP_le_length _
      _ = np := hlen
  constructor
  · rw [storeToNonUDT]
    simp only [hout, Bool.not_false, Bool.and_true, if_true]
    rw [Nat.mod_eq_of_lt (by omega)]
  · rw [storeToNonUDT]
    simp only [hout, Bool.not_true, Bool.and_false, Bool.false_eq_true,
      if_false]
    rw [Nat.mod_eq_of_lt (by omega)]
    omega

theorem storeToNonUDT_outParameter_extra_ref_slot_witness :
    (resolvedReturnType storeOracleOut none 7 none).isOutParameter = true
  ∧ 2 + 1 < 65536
  ∧ (storeToNonUDT storeOracleOut 1 none none false false none 2 7 none
        [1, 2] none).fn.nonudt.numRefParams
      = refClassifiedCount ((storeToNonUDT storeOracleOut 1 none none false
          false none 2 7 none [1, 2] none).fn.nonudt.paramTypes) + 1 :=
  ⟨by decide, by decide,
    (storeToNonUDT_outParameter_extra_ref_slot storeOracleOut 1 none none
      false none 2 7 none [1, 2] none (by decide) (by decide)).1⟩

theorem regLookup_regPut (m : RegMap) (oid : Nat) (f : Fn) :
    regLookup (regPut m oid f) oid = some f := by
  induction m with
  | nil => simp [regPut, regLookup]
  | cons kv rest ih =>
    by_cases hk : kv.1 = oid
    · simp [regPut, hk, regLookup]
    · simp [regPut, hk, regLookup, ih]

/-- C4: For a procedure identity, two consecutive Function_getFunction calls
with forValidator false return the same descriptor instance, the second
being a cache hit (whatever the guest would have done on a fresh
construction); a call with forValidator true never reads the cache for that
identity (its returned descriptor is the same for any registry content), and
it writes to the registry only when construction fully completes a usable
(non-null) descriptor. -/
theorem registry_idempotence_and_validator_bypass
    (g g2 gV : GuestCreateResult) (m m2 mA mB : RegMap) (oid : Nat)
    (f fV : Fn)
    (h : Function_getFunction g m oid false = Except.ok (some f, m2)) :
    Function_getFunction g2 m2 oid false = Except.ok (some f, m2)
  ∧ regLookup m2 oid = some f
  ∧ (Function_getFunction gV mA oid true).map Prod.fst
      = (Function_getFunction gV mB oid true).map Prod.fst
  ∧ (Function_create gV true = Except.ok none →
      Function_getFunction gV mA oid true = Except.ok (none, mA))
  ∧ (Function_create gV true = Except.error () →
      Function_getFunction gV mA oid true = Except.error ())
  ∧ (Function_create gV true = Except.ok (some fV) →
      Function_getFunction gV mA oid true
        = Except.ok (some fV, regPut mA oid fV)) := by
  have hlk : regLookup m2 oid = some f := by
    rw [Function_getFunction, if_neg (by decide)] at h
    cases hl : regLookup m oid with
    | some f0 =>
      rw [hl] at h
      injection h with hab
      injection hab with hf hm
      injection hf with hf2
      rw [← hm, hl, hf2]
    | none =>
      rw [hl] at h
      cases hc : Function_create g false with
      | error e =>
        rw [hc] at h
        simp at h
      | ok v =>
        cases v with
        | none =>
          rw [hc] at h
          simp at h
        | some f1 =>
          rw [hc] at h
          injection h with hab
          injection hab with hf hm
          injection hf with hf2
          rw [← hm, regLookup_regPut, hf2]
  refine ⟨?_, hlk, ?_, ?_, ?_, ?_⟩
  · rw [Function_getFunction, if_neg (by decide), hlk]
  · cases hc : Function_create gV true with
    | error e =>
      simp [Function_getFunction, hc]
    | ok v =>
      cases v <;> simp [Function_getFunction, hc, Except.map]
  · intro hcn
    rw [Function_getFunction, if_pos rfl, hcn]
  · intro hce
    rw [Function_getFunction, if_pos rfl, hce]
  · intro hcs
    rw [Function_getFunction, if_pos rfl, hcs]

theorem registry_idempotence_and_validator_bypass_witness :
    Function_getFunction guestSample regSample 5 false
      = Except.ok (some fnSample, regSample)
  ∧ Function_getFunction guestThrows regSample 5 false
      = Except.ok (some fnSample, regSample) :=
  ⟨rfl,
    (registry_idempotence_and_validator_bypass guestSample guestThrows
      guestThrows regSample regSample regSample regSample 5 fnSample fnOther
      rfl).1⟩

theorem clear_in_use_mem (stack : List (Option Fn)) (m : RegMap) (k : Nat)
    (f : Fn) (hmem : (k, f) ∈ m) (hu : Function_inUse stack f = true) :
    (k, f) ∈ (Function_clearFunctionCache stack m).1 := by
  induction m with
  | nil => cases hmem
  | cons kv rest ih =>
    obtain ⟨k0, f0⟩ := kv
    rcases List.mem_cons.mp hmem with heq | htl
    · cases heq
      simp [Function_clearFunctionCache, hu]
    · have h2 := ih htl
      by_cases hu0 : Function_inUse stack f0 = true
      · simp [Function_clearFunctionCache, hu0, h2]
      · have hu0f : Function_inUse stack f0 = false := by
          cases hb : Function_inUse stack f0
          · rfl
          · exact absurd hb hu0
        simp [Function_clearFunctionCache, hu0f, h2]

theorem clear_not_in_use_absent (stack : List (Option Fn)) (f : Fn)
    (hu : Function_inUse stack f = false) :
    ∀ (m : RegMap) (k2 : Nat),
      (k2, f) ∉ (Function_clearFunctionCache stack m).1 := by
  intro m
  induction m with
  | nil =>
    intro k2 hmem
    simp [Function_clearFunctionCache] at hmem
  | cons kv rest ih =>
    obtain ⟨k0, f0⟩ := kv
    intro k2 hmem
    by_cases hu0 : Function_inUse stack f0 = true
    · simp only [Function_clearFunctionCache, hu0, if_true,
        List.mem_cons] at hmem
      rcases hmem with heq | hmem2
      · injection heq with hk hf
        rw [hf] at hu
        rw [hu] at hu0
        cases hu0
      · exact ih k2 hmem2
    · have hu0f : Function_inUse stack f0 = false := by
        cases hb : Function_inUse stack f0
        · rfl
        · exact absurd hb hu0
      simp only [Function_clearFunctionCache, hu0f, Bool.false_eq_true,
        if_false] at hmem
      exact ih k2 hmem

theorem clear_released_mem (stack : List (Option Fn)) (m : RegMap) (k : Nat)
    (f : Fn) (hmem : (k, f) ∈ m) (hu : Function_inUse stack f = false) :
    f ∈ (Function_clearFunctionCache stack m).2 := by
  induction m with
  | nil => cases hmem
  | cons kv rest ih =>
    obtain ⟨k0, f0⟩ := kv
    rcases List.mem_cons.mp hmem with heq | htl
    · cases heq
      simp [Function_clearFunctionCache, hu]
    · have h2 := ih htl
      by_cases hu0 : Function_inUse stack f0 = true
      · simp [Function_clearFunctionCache, hu0, h2]
      · have hu0f : Function_inUse stack f0 = false := by
          cases hb : Function_inUse stack f0
          · rfl
          · exact absurd hb hu0
        simp [Function_clearFunctionCache, hu0f, h2]

/-- C5: After Function_clearFunctionCache, every registry entry whose
descriptor is referenced by a frame on the active invocation frame stack is
present in the new registry map with the same key and the same (unchanged)
descriptor value, and every entry whose descriptor is not so referenced is
absent from the new map (under any key) and is released. -/
theorem clearFunctionCache_in_use_survival
    (stack : List (Option Fn)) (m : RegMap) (k kAbs : Nat) (f : Fn)
    (hmem : (k, f) ∈ m) :
    (Function_inUse stack f = true →
      (k, f) ∈ (Function_clearFunctionCache stack m).1)
  ∧ (Function_inUse stack f = false →
      (kAbs, f) ∉ (Function_clearFunctionCache stack m).1
      ∧ f ∈ (Function_clearFunctionCache stack m).2) :=
  ⟨fun hu => clear_in_use_mem stack m k f hmem hu,
   fun hu => ⟨clear_not_in_use_absent stack f hu m kAbs,
     clear_released_mem stack m k f hmem hu⟩⟩

theorem clearFunctionCache_in_use_survival_witness :
    (5, fnSample) ∈ regSample2
  ∧ Function_inUse stackSample fnSample = true
  ∧ (5, fnSample) ∈ (Function_clearFunctionCache stackSample regSample2).1 :=
  ⟨by decide, by decide,
    (clearFunctionCache_in_use_survival stackSample regSample2 5 0 fnSample
      (by decide)).1 (by decide)⟩
